import Mathlib

/-!
Verification of the Coders-gyan-youtube repository snippets.

Each namespace embeds one source file (or one markdown code example) of the
repository as executable Lean definitions, translated directly from the
JavaScript/TypeScript source, and proves the specified properties about them.
-/

namespace JsMethods

/-!
Embedding of `src/js-methods/map.js`.

`Array.prototype.myMap = function (callback, thisArgs) { ... }`:
the receiver array is a `List α` (an array without holes), the callback
receives the element, its index and the whole array.  The `for` loop pushing
`callback.call(thisArgs, this[i], i, this)` onto `result` is embedded as the
tail-recursive `myMapGo` accumulating via `acc ++ [·]` (push).
-/

/-- A JS value passed as the `callback` argument of `myMap`: either a function
(callable) or any non-function value, carrying its string coercion used in the
`TypeError` message. -/
inductive JSCallback (α γ : Type) where
  | fn (f : α → Nat → List α → γ)
  | notFn (str : String)

/-- Is the JS value of function type (`typeof callback === 'function'`)? -/
def JSCallback.isCallable {α γ : Type} : JSCallback α γ → Bool
  | .fn _ => true
  | .notFn _ => false

/-- The loop `for (let i = 0; i < this.length; i++) result.push(callback.call(thisArgs, this[i], i, this))`
of `Array.prototype.myMap`, from index `i` with accumulator `acc`. -/
def myMapGo {α γ : Type} (f : α → Nat → List α → γ) (arr : List α)
    (i : Nat) (acc : List γ) : List γ :=
  if h : i < arr.length then
    myMapGo f arr (i + 1) (acc ++ [f (arr.get ⟨i, h⟩) i arr])
  else
    acc
termination_by arr.length - i

/-- `Array.prototype.myMap` from `src/js-methods/map.js`: type-checks the
callback, throwing `TypeError` (modelled as `Except.error`) when it is not a
function, and otherwise runs the push loop and returns the result array. -/
def myMap {α γ : Type} (callback : JSCallback α γ) (arr : List α) :
    Except String (List γ) :=
  match callback with
  | .notFn s => .error (s ++ " is not a function")
  | .fn f => .ok (myMapGo f arr 0 [])

/-- The built-in `Array.prototype.map` on a holeless array: calls the callback
with `(value, index, array)` for each element, in index order.  This is the
specification-side definition the custom `myMap` is compared against. -/
def builtinMap {α γ : Type} (f : α → Nat → List α → γ) (arr : List α) : List γ :=
  arr.mapIdx (fun i a => f a i arr)

theorem myMapGo_eq {α γ : Type} (f : α → Nat → List α → γ) (arr : List α)
    (i : Nat) (acc : List γ) :
    myMapGo f arr i acc = acc ++ (builtinMap f arr).drop i := by
  unfold myMapGo
  split
  · next h =>
    rw [myMapGo_eq f arr (i + 1) (acc ++ [f (arr.get ⟨i, h⟩) i arr])]
    have hB : i < (builtinMap f arr).length := by
      simp [builtinMap, List.length_mapIdx, h]
    rw [List.drop_eq_getElem_cons hB]
    have hget : (builtinMap f arr).get ⟨i, hB⟩ = f (arr.get ⟨i, h⟩) i arr := by
      simpa [builtinMap] using List.get_mapIdx arr (fun i a => f a i arr) i h
    have hget2 : (builtinMap f arr)[i] = f (arr.get ⟨i, h⟩) i arr := hget
    rw [hget2]
    simp
  · next h =>
    have hle : arr.length ≤ i := Nat.le_of_not_lt h
    rw [List.drop_eq_nil_of_le (by simpa [builtinMap, List.length_mapIdx] using hle)]
    simp
termination_by arr.length - i

end JsMethods

namespace StarRating

/-!
Embedding of `src/star-rating/script.js`.

The DOM state consists of the children of `#star-container` (a list of star
`<span>` elements, each carrying its `classList`, its `innerHTML` and the loop
index `i` captured by its event listeners), the `rating` variable, the
`innerText` of `#rating-value`, and — for the "no backend call" property — the
list of backend API calls issued so far (the click handler only carries a
`todo` comment, so it never issues one).
-/

/-- One star `<span>` element: its `classList`, its `innerHTML`, and the loop
index `i` captured by the closures installed as its event listeners. -/
structure Star where
  classes : List String
  inner : String
  idx : Nat
  deriving DecidableEq, Repr

/-- The widget's mutable state: the stars inside `#star-container`, the
`rating` variable, the `innerText` of `#rating-value`, and the backend calls
issued so far. -/
structure WidgetState where
  stars : List Star
  rating : Nat
  ratingText : String
  backendCalls : List String
  deriving DecidableEq, Repr

/-- `classList.add(c)`: a token list keeps no duplicates, so adding an already
present class is a no-op. -/
def classListAdd (c : String) (cs : List String) : List String :=
  if c ∈ cs then cs else cs ++ [c]

/-- `classList.remove(c)`: removes the token. -/
def classListRemove (c : String) (cs : List String) : List String :=
  cs.filter (fun x => x ≠ c)

/-- `TOTAL_STARS = 5` from the script. -/
def TOTAL_STARS : Nat := 5

/-- `renderStars(totalStars)`: sets `starContainer.innerHTML = ''` (clearing
all children) and then for `i = 0 .. totalStars-1` creates a span with class
`star` and inner `"★"`, installs the listeners capturing `i`, and appends it. -/
def renderStars (totalStars : Nat) (s : WidgetState) : WidgetState :=
  let newStars := (List.range totalStars).map
    (fun i => { classes := ["star"], inner := "★", idx := i : Star })
  { s with stars := newStars }

/-- `highlightStars(rating)`: iterates over all `.star` elements (here: all
children of the container, each of which has class `star`), adding the
`filled` class to the stars at index `< rating` and removing it elsewhere. -/
def highlightStars (r : Nat) (s : WidgetState) : WidgetState :=
  let newStars := s.stars.mapIdx
    (fun index star =>
      if index < r then { star with classes := classListAdd "filled" star.classes }
      else { star with classes := classListRemove "filled" star.classes })
  { s with stars := newStars }

/-- The `click` listener installed on the star that captured loop index `i`:
`rating = i + 1; ratingValue.innerText = rating` and a `todo` comment in place
of the backend submission (so `backendCalls` is unchanged). Clicking an
element that does not exist dispatches to nobody and changes nothing. -/
def clickStar (s : WidgetState) (i : Nat) : WidgetState :=
  match s.stars.get? i with
  | some star =>
      { s with rating := star.idx + 1, ratingText := toString (star.idx + 1) }
  | none => s

/-- The `mouseover` listener on the star that captured loop index `i`:
`highlightStars(i + 1)`. -/
def mouseoverStar (s : WidgetState) (i : Nat) : WidgetState :=
  match s.stars.get? i with
  | some star => highlightStars (star.idx + 1) s
  | none => s

/-- The `mouseout` listener (identical on every star): `highlightStars(rating)`. -/
def mouseoutStar (s : WidgetState) : WidgetState :=
  highlightStars s.rating s

/-- The events the widget handles. -/
inductive WEvent where
  | mouseover (i : Nat)
  | mouseout
  | click (i : Nat)
  deriving DecidableEq, Repr

/-- Dispatch of one DOM event to the listeners the script installs. -/
def step (s : WidgetState) : WEvent → WidgetState
  | .mouseover i => mouseoverStar s i
  | .mouseout => mouseoutStar s
  | .click i => clickStar s i

/-- A DOM event targets an existing star element. -/
def ValidEvent (s : WidgetState) : WEvent → Prop
  | .mouseover i => i < s.stars.length
  | .mouseout => True
  | .click i => i < s.stars.length

/-- The state before the script's top level runs: empty container, `rating = 0`,
empty `#rating-value` text, no backend calls. -/
def emptyState : WidgetState :=
  { stars := [], rating := 0, ratingText := "", backendCalls := [] }

/-- The state after the script's top level: `let rating = 0` then
`renderStars(TOTAL_STARS)`. -/
def initState : WidgetState := renderStars TOTAL_STARS emptyState

/-- The invariant of the widget: the rating is in range, the container holds
exactly `TOTAL_STARS` stars, and the star at position `j` captured loop
index `j`. -/
def Inv (s : WidgetState) : Prop :=
  s.rating ≤ TOTAL_STARS ∧ s.stars.length = TOTAL_STARS ∧
    ∀ j (h : j < s.stars.length), (s.stars.get ⟨j, h⟩).idx = j

end StarRating

namespace DIExample

/-!
Embedding of the code blocks in
`src/dependancy-injection/02-dependancy-injection.md`: the `Uploader`
interface, its `S3Uploader` / `ClUploader` implementations, the
`FileController` whose `upload` method calls `this.uploader.upload(...)`
without `await` before responding, and the Express `/file-upload` route.

Asynchrony is embedded as a statement list with a deterministic trace
semantics: an `async` method body with no `await` runs synchronously and
returns a promise whose settlement (continuation) is observed only after the
synchronous code finishes, so an unawaited promise settles after the response
is sent, while an awaited one settles before the next statement.
-/

/-- The observable effect of one `upload` call: which service, which bucket
(the constructor argument), which filename. -/
structure UploadEvent where
  service : String
  bucket : String
  filename : String
  deriving DecidableEq, Repr

/-- The two implementations of the `Uploader` interface, each holding its
`private bucket` constructor argument. -/
inductive Uploader where
  | s3Uploader (bucket : String)
  | clUploader (bucket : String)
  deriving DecidableEq, Repr

/-- `upload(filename)` of each implementation: logs
"Uploading ... to <service> in bucket <bucket>..." and resolves `true`;
the observable effect is the corresponding `UploadEvent`. -/
def Uploader.upload : Uploader → String → UploadEvent
  | .s3Uploader b, filename => { service := "S3", bucket := b, filename := filename }
  | .clUploader b, filename => { service := "Cloudinary", bucket := b, filename := filename }

/-- One statement of a handler body: an async `upload` call (awaited or not),
or sending the JSON response (`res.json` defaults to status 200,
`res.status(400).json` sets 400). -/
inductive Stmt where
  | callUpload (u : Uploader) (filename : String) (awaited : Bool)
  | respondJson (status : Nat) (message : String)
  deriving DecidableEq, Repr

/-- Events of the execution trace. -/
inductive AsyncEv where
  | uploadStarted (e : UploadEvent)
  | uploadSettled (e : UploadEvent)
  | responseSent (status : Nat) (message : String)
  deriving DecidableEq, Repr

/-- Trace semantics of a handler body.  `pending` is the queue of promises
started but not yet settled (their settlement is observed once the
synchronous code has finished, in start order).  An awaited call settles
everything pending, then the call itself, before execution continues. -/
def run : List Stmt → List UploadEvent → List AsyncEv
  | [], pending => pending.map AsyncEv.uploadSettled
  | Stmt.callUpload u f false :: rest, pending =>
      AsyncEv.uploadStarted (u.upload f) :: run rest (pending ++ [u.upload f])
  | Stmt.callUpload u f true :: rest, pending =>
      AsyncEv.uploadStarted (u.upload f) ::
        (((pending ++ [u.upload f]).map AsyncEv.uploadSettled) ++ run rest [])
  | Stmt.respondJson st m :: rest, pending =>
      AsyncEv.responseSent st m :: run rest pending

/-- `FileController.upload` as written in the source:
`this.uploader.upload("sample-file.mp4")` — NOT awaited — then
`res.json({ message: "File uploaded successfully!" })`. -/
def uploadBody (uploader : Uploader) : List Stmt :=
  [Stmt.callUpload uploader "sample-file.mp4" false,
   Stmt.respondJson 200 "File uploaded successfully!"]

/-- `FileController.upload` after the fix flagged in the source
("Your `upload` is async but not awaited"):
`await this.uploader.upload("sample-file.mp4")` then `res.json(...)`. -/
def fixedUploadBody (uploader : Uploader) : List Stmt :=
  [Stmt.callUpload uploader "sample-file.mp4" true,
   Stmt.respondJson 200 "File uploaded successfully!"]

/-- Number of unawaited promise-returning calls in a handler body. -/
def countUnawaited (body : List Stmt) : Nat :=
  (body.filter (fun s => match s with
    | Stmt.callUpload _ _ false => true
    | _ => false)).length

/-- The `/file-upload` Express route: dispatches on `req.query.uploader`
(`none` when the query parameter is absent), constructing an `S3Uploader`
with bucket "my-s3-bucket" for `"s3"`, a `ClUploader` with bucket
"my-cloudinary-bucket" for `"cloudinary"`, and otherwise responding
`res.status(400).json({ message: "Invalid uploader specified" })`. -/
def fileUpload (uploaderStr : Option String) : List AsyncEv :=
  if uploaderStr = some "s3" then
    run (uploadBody (Uploader.s3Uploader "my-s3-bucket")) []
  else if uploaderStr = some "cloudinary" then
    run (uploadBody (Uploader.clUploader "my-cloudinary-bucket")) []
  else
    [AsyncEv.responseSent 400 "Invalid uploader specified"]

/-- The uploads started during a trace. -/
def uploadsOf (tr : List AsyncEv) : List UploadEvent :=
  tr.filterMap (fun e => match e with
    | AsyncEv.uploadStarted u => some u
    | _ => none)

/-- The responses sent during a trace. -/
def responsesOf (tr : List AsyncEv) : List (Nat × String) :=
  tr.filterMap (fun e => match e with
    | AsyncEv.responseSent st m => some (st, m)
    | _ => none)

end DIExample

namespace UseBooleanLikePro

/-!
Embedding of the (uncommented, final) `getDiscount` of
`src/use-boolean-like-pro/app.js`:

    function getDiscount(price, discount) {
        discount = discount ?? 0.1
        return price - price * discount
    }

JS numbers are embedded as rationals (all literals in the snippet are exact
decimals), and a possibly-`null`/`undefined` argument as `Option ℚ` with
`none` standing for both nullish values, which is exactly what `??` tests. -/

/-- `getDiscount(price, discount)` with nullish coalescing: `discount ?? 0.1`
substitutes `0.1` only when `discount` is `null` or `undefined` (`none`). -/
def getDiscount (price : ℚ) (discount : Option ℚ) : ℚ :=
  let d : ℚ := match discount with
    | some v => v
    | none => 1 / 10
  price - price * d

end UseBooleanLikePro

namespace AuthPages

/-!
Embedding of `src/unnamed/part_000`, the Next.js `AuthLayout` server
component: it fetches the session via `auth.api.getSession`, and
`if (session) { redirect("/dashboard"); }`, otherwise returns
`<div>{children}</div>`.

`getSession` resolves to a session object or to a nullish value; this is
embedded as `Option Session`, `isSome` being JS truthiness of the result
(an object is always truthy, `null`/`undefined` are falsy). -/

/-- A better-auth session object (contents irrelevant to the layout's
control flow; one field keeps it a genuine object). -/
structure Session where
  userId : String
  deriving DecidableEq, Repr

/-- A rendered React tree over child nodes of type `α`. -/
inductive ReactNode (α : Type) where
  | child (c : α)
  | div (inner : ReactNode α)
  deriving DecidableEq, Repr

/-- What a Next.js layout render evaluates to: a `redirect(path)` (which
throws, so nothing after it renders) or a rendered tree. -/
inductive RenderResult (α : Type) where
  | redirect (path : String)
  | render (node : ReactNode α)
  deriving DecidableEq, Repr

/-- `AuthLayout({ children })`: redirects to "/dashboard" when the fetched
session is truthy, otherwise renders `<div>{children}</div>`. -/
def authLayout {α : Type} (session : Option Session) (children : α) :
    RenderResult α :=
  if session.isSome then RenderResult.redirect "/dashboard"
  else RenderResult.render (ReactNode.div (ReactNode.child children))

end AuthPages

/-! ## Theorems -/

namespace JsMethods

/-- C1: for every input array without holes and every pure callback,
`Array.prototype.myMap` applied to the array with that callback returns a
list identical (element-wise and in length) to the result of the built-in
`Array.prototype.map` on the same array and callback. -/
theorem myMap_agrees_with_builtinMap {α γ : Type}
    (f : α → Nat → List α → γ) (arr : List α) :
    myMap (JSCallback.fn f) arr = Except.ok (builtinMap f arr) := by
  simp [myMap, myMapGo_eq]

/-- C2: `myMap` throws a `TypeError` if and only if its callback argument is
not callable; when the callback is callable it never throws on its own and
returns normally. -/
theorem myMap_error_iff_not_callable {α γ : Type}
    (cb : JSCallback α γ) (arr : List α) :
    ((∃ msg, myMap cb arr = Except.error msg) ↔ cb.isCallable = false) ∧
    (cb.isCallable = true → ∃ out, myMap cb arr = Except.ok out) := by
  cases cb <;> simp [myMap, JSCallback.isCallable]

/-- Witness for C2 at a concrete callable callback and array. -/
theorem myMap_error_iff_not_callable_witness :
    ∃ out, myMap (JSCallback.fn (fun (a : Nat) (i : Nat) _ => a + i)) [5, 7]
      = Except.ok out :=
  (myMap_error_iff_not_callable (JSCallback.fn (fun a i _ => a + i)) [5, 7]).2 rfl

end JsMethods

namespace StarRating

theorem widgetState_eq (a b : WidgetState) (h1 : a.stars = b.stars)
    (h2 : a.rating = b.rating) (h3 : a.ratingText = b.ratingText)
    (h4 : a.backendCalls = b.backendCalls) : a = b := by
  cases a; cases b; simp_all

theorem length_highlightStars (r : Nat) (s : WidgetState) :
    (highlightStars r s).stars.length = s.stars.length := by
  simp [highlightStars]

theorem highlightStars_get (r : Nat) (s : WidgetState) (j : Nat)
    (hj : j < s.stars.length) (hj' : j < (highlightStars r s).stars.length) :
    (highlightStars r s).stars.get ⟨j, hj'⟩ =
      (if j < r
       then { s.stars.get ⟨j, hj⟩ with
                classes := classListAdd "filled" (s.stars.get ⟨j, hj⟩).classes }
       else { s.stars.get ⟨j, hj⟩ with
                classes := classListRemove "filled" (s.stars.get ⟨j, hj⟩).classes }) := by
  simp [highlightStars]

theorem mem_classListAdd_self (c : String) (cs : List String) :
    c ∈ classListAdd c cs := by
  unfold classListAdd
  split
  · assumption
  · simp

theorem not_mem_classListRemove_self (c : String) (cs : List String) :
    c ∉ classListRemove c cs := by
  simp [classListRemove]

/-- C5: `renderStars(totalStars)` first clears the container and then appends
exactly `totalStars` star span elements (each a span with class `star` and
inner text "★"), and the widget is initialised with `TOTAL_STARS = 5`. -/
theorem renderStars_renders_fixed_count :
    (∀ (n : Nat) (s : WidgetState),
        (renderStars n s).stars.length = n ∧
        renderStars n s = renderStars n { s with stars := [] } ∧
        ∀ j (hj : j < (renderStars n s).stars.length),
          ((renderStars n s).stars.get ⟨j, hj⟩).classes = ["star"] ∧
          ((renderStars n s).stars.get ⟨j, hj⟩).inner = "★") ∧
    TOTAL_STARS = 5 ∧ initState.stars.length = TOTAL_STARS := by
  refine ⟨fun n s => ⟨?_, rfl, fun j hj => ?_⟩, rfl, ?_⟩
  · simp [renderStars]
  · have hj' : j < n := by simpa [renderStars] using hj
    constructor <;> simp [renderStars, hj']
  · simp [initState, renderStars, emptyState, TOTAL_STARS]

/-- Witness for C5 at `n = 2` starting from the empty state. -/
theorem renderStars_renders_fixed_count_witness :
    (renderStars 2 emptyState).stars.length = 2 ∧
    ((renderStars 2 emptyState).stars.get ⟨1, by decide⟩).inner = "★" :=
  ⟨(renderStars_renders_fixed_count.1 2 emptyState).1,
   ((renderStars_renders_fixed_count.1 2 emptyState).2.2 1 (by decide)).2⟩

/-- C6: a click on the `i`-th rendered star (for `0 ≤ i < TOTAL_STARS`) sets
the stored rating to `i + 1` and the displayed rating-value text to that same
number, and issues no backend call. -/
theorem click_sets_rating (s₀ : WidgetState) (i : Nat) (h : i < TOTAL_STARS) :
    (clickStar (renderStars TOTAL_STARS s₀) i).rating = i + 1 ∧
    (clickStar (renderStars TOTAL_STARS s₀) i).ratingText = toString (i + 1) ∧
    (clickStar (renderStars TOTAL_STARS s₀) i).backendCalls = s₀.backendCalls := by
  refine ⟨?_, ?_, ?_⟩ <;> simp [clickStar, renderStars, List.getElem?_range, h]

/-- Witness for C6: clicking star index 2 on the freshly rendered widget. -/
theorem click_sets_rating_witness :
    (clickStar (renderStars TOTAL_STARS emptyState) 2).rating = 2 + 1 ∧
    (clickStar (renderStars TOTAL_STARS emptyState) 2).ratingText = toString (2 + 1) ∧
    (clickStar (renderStars TOTAL_STARS emptyState) 2).backendCalls = emptyState.backendCalls :=
  click_sets_rating emptyState 2 (by decide)

end StarRating

namespace StarRating

theorem classListAdd_idem (c : String) (cs : List String) :
    classListAdd c (classListAdd c cs) = classListAdd c cs := by
  show (if c ∈ classListAdd c cs then classListAdd c cs else classListAdd c cs ++ [c])
      = classListAdd c cs
  rw [if_pos (mem_classListAdd_self c cs)]

theorem classListRemove_idem (c : String) (cs : List String) :
    classListRemove c (classListRemove c cs) = classListRemove c cs := by
  simp [classListRemove, List.filter_filter]

/-- C7: after `highlightStars(r)` with `0 ≤ r ≤` the number of rendered stars,
exactly the first `r` star elements have the `filled` class and every star at
index `≥ r` does not, regardless of which stars were filled before the call;
hence `highlightStars` is idempotent, and the `mouseout` listener restores the
display to the stored rating. -/
theorem highlightStars_fillsExactly (s : WidgetState) (r : Nat)
    (hr : r ≤ s.stars.length) :
    (∀ j (hj : j < (highlightStars r s).stars.length),
        ("filled" ∈ ((highlightStars r s).stars.get ⟨j, hj⟩).classes ↔ j < r)) ∧
    highlightStars r (highlightStars r s) = highlightStars r s ∧
    mouseoutStar s = highlightStars s.rating s := by
  refine ⟨fun j hj => ?_, ?_, rfl⟩
  · have hj0 : j < s.stars.length := by
      simpa [length_highlightStars] using hj
    rw [highlightStars_get r s j hj0 hj]
    by_cases hjr : j < r
    · simp [hjr, mem_classListAdd_self]
    · simp [hjr, not_mem_classListRemove_self]
  · refine widgetState_eq _ _ ?_ rfl rfl rfl
    apply List.ext_getElem
    · simp [length_highlightStars]
    · intro j h1 h2
      have hj1 : j < (highlightStars r s).stars.length := h2
      have hj0 : j < s.stars.length := by
        simpa [length_highlightStars] using h2
      show (highlightStars r (highlightStars r s)).stars.get ⟨j, h1⟩ =
        (highlightStars r s).stars.get ⟨j, h2⟩
      rw [highlightStars_get r (highlightStars r s) j hj1 h1,
        highlightStars_get r s j hj0 hj1]
      by_cases hjr : j < r
      · simp [hjr, classListAdd_idem]
      · simp [hjr, classListRemove_idem]

/-- Witness for C7: `r = 1` on a widget whose second star is still filled from
an earlier `highlightStars 2`. -/
theorem highlightStars_fillsExactly_witness :
    ("filled" ∈ ((highlightStars 1 (highlightStars 2 (renderStars 3 emptyState))).stars.get
        ⟨0, by decide⟩).classes ↔ 0 < 1) ∧
    highlightStars 1 (highlightStars 1 (highlightStars 2 (renderStars 3 emptyState))) =
      highlightStars 1 (highlightStars 2 (renderStars 3 emptyState)) :=
  ⟨(highlightStars_fillsExactly (highlightStars 2 (renderStars 3 emptyState)) 1
      (by decide)).1 0 (by decide),
   (highlightStars_fillsExactly (highlightStars 2 (renderStars 3 emptyState)) 1
      (by decide)).2.1⟩

theorem highlightStars_idx (r : Nat) (s : WidgetState) (j : Nat)
    (hj : j < s.stars.length) (hj' : j < (highlightStars r s).stars.length) :
    ((highlightStars r s).stars.get ⟨j, hj'⟩).idx = (s.stars.get ⟨j, hj⟩).idx := by
  rw [highlightStars_get r s j hj hj']
  split <;> rfl

theorem inv_highlightStars (r : Nat) (s : WidgetState) (h : Inv s) :
    Inv (highlightStars r s) := by
  obtain ⟨h1, h2, h3⟩ := h
  refine ⟨h1, ?_, ?_⟩
  · rw [length_highlightStars]
    exact h2
  · intro j hj
    have hj0 : j < s.stars.length := by
      simpa [length_highlightStars] using hj
    rw [highlightStars_idx r s j hj0 hj]
    exact h3 j hj0

/-- C8: the widget tracks a single integer rating with `0 ≤ rating ≤
TOTAL_STARS`: the invariant holds initially (`rating = 0`) and is preserved
by every event the widget handles (mouseover, mouseout, and click — the only
event that writes `rating`, setting it to `i + 1` with `0 ≤ i <
TOTAL_STARS`). -/
theorem widget_invariant :
    Inv initState ∧
    ∀ (s : WidgetState) (e : WEvent), Inv s → ValidEvent s e → Inv (step s e) := by
  constructor
  · refine ⟨by decide, by decide, ?_⟩
    intro j hj
    have hj5 : j < TOTAL_STARS := by
      simpa [initState, renderStars, emptyState] using hj
    simp [initState, renderStars, emptyState, hj5]
  · rintro s e ⟨h1, h2, h3⟩ hv
    cases e with
    | mouseover i =>
        have hvi : i < s.stars.length := hv
        show Inv (mouseoverStar s i)
        unfold mouseoverStar
        rw [List.get?_eq_get hvi]
        exact inv_highlightStars _ _ ⟨h1, h2, h3⟩
    | mouseout =>
        exact inv_highlightStars _ _ ⟨h1, h2, h3⟩
    | click i =>
        have hvi : i < s.stars.length := hv
        show Inv (clickStar s i)
        unfold clickStar
        rw [List.get?_eq_get hvi]
        refine ⟨?_, h2, h3⟩
        have hidx := h3 i hvi
        show (s.stars.get ⟨i, hvi⟩).idx + 1 ≤ TOTAL_STARS
        rw [hidx]
        omega

/-- Witness for C8: one step (clicking the last star) from the initial state. -/
theorem widget_invariant_witness : Inv (step initState (WEvent.click 4)) :=
  widget_invariant.2 initState (WEvent.click 4) widget_invariant.1
    (show (4 : Nat) < initState.stars.length by decide)

end StarRating

namespace DIExample

/-- C3: the `/file-upload` route uploads via a newly constructed `S3Uploader`
when the `uploader` query parameter equals "s3", via a newly constructed
`ClUploader` when it equals "cloudinary", and for every other value
(including absent) responds with HTTP 400 and the message
"Invalid uploader specified" without invoking any uploader. -/
theorem fileUpload_dispatch (q : Option String) :
    uploadsOf (fileUpload (some "s3")) =
      [{ service := "S3", bucket := "my-s3-bucket", filename := "sample-file.mp4" }] ∧
    uploadsOf (fileUpload (some "cloudinary")) =
      [{ service := "Cloudinary", bucket := "my-cloudinary-bucket",
         filename := "sample-file.mp4" }] ∧
    (q ≠ some "s3" → q ≠ some "cloudinary" →
      fileUpload q = [AsyncEv.responseSent 400 "Invalid uploader specified"] ∧
      uploadsOf (fileUpload q) = []) := by
  refine ⟨rfl, rfl, fun h1 h2 => ?_⟩
  unfold fileUpload
  rw [if_neg h1, if_neg h2]
  exact ⟨rfl, rfl⟩

/-- Witness for C3 at an absent `uploader` query parameter. -/
theorem fileUpload_dispatch_witness :
    fileUpload none = [AsyncEv.responseSent 400 "Invalid uploader specified"] ∧
    uploadsOf (fileUpload none) = [] :=
  (fileUpload_dispatch none).2.2 (by decide) (by decide)

/-- C4: `FileController.upload` contains exactly one unawaited
promise-returning call — `this.uploader.upload("sample-file.mp4")` — so its
trace sends the success JSON response before the upload promise settles,
whereas the fix flagged in the source (`await`ing the call) settles the
promise before the response is sent. -/
theorem upload_responds_before_settle (u : Uploader) :
    countUnawaited (uploadBody u) = 1 ∧
    run (uploadBody u) [] =
      [AsyncEv.uploadStarted (u.upload "sample-file.mp4"),
       AsyncEv.responseSent 200 "File uploaded successfully!",
       AsyncEv.uploadSettled (u.upload "sample-file.mp4")] ∧
    countUnawaited (fixedUploadBody u) = 0 ∧
    run (fixedUploadBody u) [] =
      [AsyncEv.uploadStarted (u.upload "sample-file.mp4"),
       AsyncEv.uploadSettled (u.upload "sample-file.mp4"),
       AsyncEv.responseSent 200 "File uploaded successfully!"] :=
  ⟨rfl, rfl, rfl, rfl⟩

end DIExample

namespace UseBooleanLikePro

/-- C9: `getDiscount(price, discount)` applies the default discount `0.1`
only when `discount` is `null` or `undefined`; for every non-nullish
`discount` — including `0` — it returns `price - price * discount`, so in
particular `getDiscount(p, 0) = p`. -/
theorem getDiscount_nullish (p d : ℚ) :
    getDiscount p (some d) = p - p * d ∧
    getDiscount p none = p - p * (1 / 10) ∧
    getDiscount p (some 0) = p := by
  refine ⟨rfl, rfl, ?_⟩
  simp [getDiscount]

end UseBooleanLikePro

namespace AuthPages

/-- C10: `AuthLayout` redirects to "/dashboard" if and only if a session
exists (the fetched session is truthy); when it is falsy no redirect occurs
and the children are rendered unchanged inside the returned `<div>`. -/
theorem authLayout_redirect_iff {α : Type} (session : Option Session)
    (children : α) :
    (authLayout session children = RenderResult.redirect "/dashboard" ↔
        session.isSome = true) ∧
    (session.isSome = false →
        authLayout session children =
          RenderResult.render (ReactNode.div (ReactNode.child children))) := by
  cases session <;> simp [authLayout]

/-- Witness for C10 at a missing session: the children render unchanged. -/
theorem authLayout_redirect_iff_witness :
    authLayout (none : Option Session) (0 : Nat) =
      RenderResult.render (ReactNode.div (ReactNode.child 0)) :=
  (authLayout_redirect_iff none 0).2 rfl

end AuthPages
